import Mathlib

/-!
Shallow embedding of the simulation sketch in src/experiment1.ipynb.

The notebook defines world constants, a Location class, an Individual class
with a Euclidean distance helper and a Gaussian infection-pressure
contribution, and a Population class with three aggregate-count methods.
Real-valued quantities are embedded in the real numbers; the scipy call
norm.pdf(x, scale) is embedded by its defining formula
exp(-(x/scale)^2/2) / (scale * sqrt(2*pi)).

Name-resolution slips in the notebook are resolved to their evident intent
and disclosed at each definition: cal_distance omits its self parameter and
reads self.x / self.y (an Individual has no x or y; its Location does), and
get_infection_pressure calls cal_distance without the self qualifier.
-/

namespace Covid19

/-- Constant X_BOUNDARY = (0, 300000) from the notebook, in meters. -/
def X_BOUNDARY : ℝ × ℝ := (0, 300000)

/-- Constant Y_BOUNDARY = (0, 800000) from the notebook, in meters. -/
def Y_BOUNDARY : ℝ × ℝ := (0, 800000)

/-- Constant POPULATION = 67886011 from the notebook. -/
def POPULATION : ℕ := 67886011

/-- Constant AVERAGE_TEMPRATURE = 15.0 from the notebook (sic). -/
noncomputable def AVERAGE_TEMPRATURE : ℝ := 15.0

/-- Constant VIRUS_LIFE_EXPECTANCY = 4.0 (hours) from the notebook.
It is defined in the notebook but never read by any method. -/
noncomputable def VIRUS_LIFE_EXPECTANCY : ℝ := 4.0

/-- The Location class: a 2D coordinate. The notebook constructor stores
x and y unconditionally, with no bounds check. -/
structure Location where
  x : ℝ
  y : ℝ

/-- Location.__init__: stores the two coordinates as given. -/
def Location.init (x y : ℝ) : Location := ⟨x, y⟩

/-- Modelled from the spec: the world-bounds invariant
0 ≤ x ≤ X_MAX and 0 ≤ y ≤ Y_MAX. The notebook defines the boundary
constants X_BOUNDARY and Y_BOUNDARY but no code checks a Location against
them. -/
def Location.inBounds (L : Location) : Prop :=
  X_BOUNDARY.1 ≤ L.x ∧ L.x ≤ X_BOUNDARY.2 ∧ Y_BOUNDARY.1 ≤ L.y ∧ L.y ≤ Y_BOUNDARY.2

/-- The Individual class fields, exactly the attributes set by
Individual.__init__ in the notebook. -/
structure Individual where
  location : Location
  age : ℤ
  is_infected : Bool
  infection_date : Option ℤ
  has_symptom : Bool
  symptom_date : Option ℤ
  is_dead : Bool
  death_date : Option ℤ
  vulnerability : ℝ
  mobility : ℝ
  immunity : ℝ
  infection_radius : ℝ

/-- Individual.__init__: assigns every argument to the corresponding
attribute. The notebook performs no validation of any argument; in
particular infection_radius is stored whatever its sign. -/
def Individual.init (location : Location) (age : ℤ) (is_infected : Bool)
    (infection_date : Option ℤ) (has_symptom : Bool) (symptom_date : Option ℤ)
    (is_dead : Bool) (death_date : Option ℤ)
    (vulnerability mobility immunity infection_radius : ℝ) : Individual :=
  ⟨location, age, is_infected, infection_date, has_symptom, symptom_date,
   is_dead, death_date, vulnerability, mobility, immunity, infection_radius⟩

/-- Individual.cal_distance. The notebook writes
sqrt((self.x - location.x)**2 + (self.y - location.y)**2); an Individual has
no attributes x and y (its Location does), and the method omits its self
parameter, so self.x / self.y are resolved here to the individual's own
location coordinates, the evident intent. -/
noncomputable def Individual.cal_distance (self : Individual) (location : Location) : ℝ :=
  Real.sqrt ((self.location.x - location.x) ^ 2 + (self.location.y - location.y) ^ 2)

/-- Embedding of scipy.stats.norm.pdf(x, loc=0, scale):
the Gaussian density exp(-(x/scale)^2/2) / (scale * sqrt(2*pi)). -/
noncomputable def norm_pdf (x : ℝ) (scale : ℝ) : ℝ :=
  Real.exp (-(x / scale) ^ 2 / 2) / (scale * Real.sqrt (2 * Real.pi))

/-- Individual.get_infection_pressure: returns
infectious_rate * norm.pdf(x = cal_distance(location), scale = infection_radius * 3).
The notebook calls cal_distance without the self qualifier; it is resolved
here to the method on self, the evident intent. Note the method reads only
self.location and self.infection_radius: infection_date and
VIRUS_LIFE_EXPECTANCY do not occur in its body. -/
noncomputable def Individual.get_infection_pressure (self : Individual)
    (location : Location) (infectious_rate : ℝ) : ℝ :=
  infectious_rate * norm_pdf (self.cal_distance location) (self.infection_radius * 3)

/-- Helper used by the C4 analysis: rebuild an individual with a different
infection_date, every other attribute unchanged. -/
def Individual.with_infection_date (self : Individual) (d : Option ℤ) : Individual :=
  ⟨self.location, self.age, self.is_infected, d, self.has_symptom, self.symptom_date,
   self.is_dead, self.death_date, self.vulnerability, self.mobility, self.immunity,
   self.infection_radius⟩

/-- The Population class fields, exactly the attributes set by
Population.__init__ (individuals_array is initialised to None and never
written by the notebook's methods). -/
structure Population where
  population_location : Location
  population_size : ℤ
  individuals_list : List Individual
  individuals_array : Option (List (List ℝ))

/-- Population.__init__: stores location, size and the individuals list and
sets individuals_array to None. -/
def Population.init (population_location : Location) (population_size : ℤ)
    (individuals : List Individual) : Population :=
  ⟨population_location, population_size, individuals, none⟩

/-- Population.get_infected_count: infected_count starts at 0 and the loop
adds individual.is_infected (a bool, added as 0 or 1) for every individual
in individuals_list. -/
def Population.get_infected_count (self : Population) : ℕ :=
  self.individuals_list.foldl (fun acc i => acc + (if i.is_infected then 1 else 0)) 0

/-- Population.get_has_symptom_count: same loop over individual.has_symptom. -/
def Population.get_has_symptom_count (self : Population) : ℕ :=
  self.individuals_list.foldl (fun acc i => acc + (if i.has_symptom then 1 else 0)) 0

/-- Population.get_death_count: same loop over individual.is_dead. -/
def Population.get_death_count (self : Population) : ℕ :=
  self.individuals_list.foldl (fun acc i => acc + (if i.is_dead then 1 else 0)) 0

/-- Method-call semantics of Population.get_infected_count as a state
transformer: the body declares a local accumulator, reads
self.individuals_list, and assigns to no attribute of self or of any
individual, so the call returns the count together with the unchanged
object state. -/
def Population.get_infected_count_call (self : Population) : ℕ × Population :=
  (self.individuals_list.foldl (fun acc i => acc + (if i.is_infected then 1 else 0)) 0, self)

/-- Method-call semantics of Population.get_has_symptom_count (read-only body). -/
def Population.get_has_symptom_count_call (self : Population) : ℕ × Population :=
  (self.individuals_list.foldl (fun acc i => acc + (if i.has_symptom then 1 else 0)) 0, self)

/-- Method-call semantics of Population.get_death_count (read-only body). -/
def Population.get_death_count_call (self : Population) : ℕ × Population :=
  (self.individuals_list.foldl (fun acc i => acc + (if i.is_dead then 1 else 0)) 0, self)

/-- Modelled from the spec: the aggregate pressure field. The notebook
implements only the per-individual contribution
Individual.get_infection_pressure; the aggregation over infectious
individuals (spec 4.2: pressure(L) is the sum over currently infectious
individuals of their kernel contribution at L) is not implemented in the
source, so it is modelled here as the sum of get_infection_pressure over
the individuals whose is_infected flag is set. -/
noncomputable def Population.pressure_at (self : Population) (location : Location)
    (infectious_rate : ℝ) : ℝ :=
  (self.individuals_list.filter (fun i => i.is_infected)).foldl
    (fun acc i => acc + i.get_infection_pressure location infectious_rate) 0

/-- Concrete location at the origin, used by witnesses. -/
def loc0 : Location := ⟨0, 0⟩

/-- Concrete infectious individual with infection_radius = 2 and
infection_date = step 0, used by witnesses and the C4 counterexample. -/
def indiv_r2 : Individual :=
  ⟨loc0, 40, true, some 0, false, none, false, none, 1, 1, 1, 2⟩

/-- Concrete individual built by the constructor with infection_radius = -1,
used by the C7 counterexample. -/
def indiv_bad : Individual :=
  Individual.init loc0 40 false none false none false none 1 1 1 (-1)

/-- Concrete population containing one non-infected individual, used by the
C2 witness. -/
def pop_clean : Population :=
  Population.init loc0 1 [⟨loc0, 40, false, none, false, none, false, none, 1, 1, 1, 2⟩]

/- ------------------------------------------------------------------ -/
/- Helper lemmas                                                       -/
/- ------------------------------------------------------------------ -/

theorem cal_distance_self (i : Individual) : i.cal_distance i.location = 0 := by
  unfold Individual.cal_distance
  norm_num

theorem cal_distance_nonneg (i : Individual) (L : Location) : 0 ≤ i.cal_distance L := by
  unfold Individual.cal_distance
  exact Real.sqrt_nonneg _

theorem pressure_at_self (i : Individual) (r : ℝ) :
    i.get_infection_pressure i.location r
      = r / (i.infection_radius * 3 * Real.sqrt (2 * Real.pi)) := by
  unfold Individual.get_infection_pressure norm_pdf
  rw [cal_distance_self]
  norm_num [Real.exp_zero, mul_one_div]
  ring

theorem norm_pdf_nonneg (x σ : ℝ) (hσ : 0 ≤ σ) : 0 ≤ norm_pdf x σ := by
  unfold norm_pdf
  exact div_nonneg (Real.exp_pos _).le (mul_nonneg hσ (Real.sqrt_nonneg _))

theorem norm_pdf_anti (x1 x2 σ : ℝ) (hσ : 0 < σ) (h1 : 0 ≤ x1) (h12 : x1 ≤ x2) :
    norm_pdf x2 σ ≤ norm_pdf x1 σ := by
  unfold norm_pdf
  have hden : 0 < σ * Real.sqrt (2 * Real.pi) :=
    mul_pos hσ (Real.sqrt_pos.mpr (by positivity))
  have hdiv : x1 / σ ≤ x2 / σ := div_le_div_of_nonneg_right h12 hσ.le
  have h1d : 0 ≤ x1 / σ := div_nonneg h1 hσ.le
  have hsq : (x1 / σ) ^ 2 ≤ (x2 / σ) ^ 2 := pow_le_pow_left₀ h1d hdiv 2
  have hexp : Real.exp (-(x2 / σ) ^ 2 / 2) ≤ Real.exp (-(x1 / σ) ^ 2 / 2) :=
    Real.exp_le_exp.mpr (by linarith)
  exact div_le_div_of_nonneg_right hexp hden.le

theorem foldl_bool_count (f : Individual → Bool) (l : List Individual) (n : ℕ) :
    l.foldl (fun acc i => acc + (if f i then 1 else 0)) n = n + (l.filter f).length := by
  induction l generalizing n with
  | nil => simp
  | cons a t ih =>
      cases hfa : f a <;> simp [List.filter_cons, hfa, ih] <;> omega

/- ------------------------------------------------------------------ -/
/- Claim theorems                                                      -/
/- ------------------------------------------------------------------ -/

/-- C1: for an individual whose infection_radius is 2, querying
get_infection_pressure with infectious_rate 1 at a location at distance 0
from the individual returns exactly the Gaussian density at mu = 0 with
scale 6, that is 1 / (6 * sqrt(2 * pi)). -/
theorem C1_pressure_at_distance_zero (i : Individual) (L : Location)
    (hR : i.infection_radius = 2) (hd : i.cal_distance L = 0) :
    i.get_infection_pressure L 1 = 1 / (6 * Real.sqrt (2 * Real.pi)) := by
  unfold Individual.get_infection_pressure norm_pdf
  rw [hd, hR]
  norm_num [Real.exp_zero]

/-- Witness for C1 at the concrete individual indiv_r2 queried at its own
location. -/
theorem C1_witness :
    indiv_r2.get_infection_pressure loc0 1 = 1 / (6 * Real.sqrt (2 * Real.pi)) :=
  C1_pressure_at_distance_zero indiv_r2 loc0 rfl (cal_distance_self indiv_r2)

/-- C2: get_infection_pressure is non-negative for every individual with
positive infection_radius, every query location and every non-negative
infectious_rate; and the aggregate pressure (modelled from the spec, see
Population.pressure_at) is exactly zero at every location when no
individual is infectious. -/
theorem C2_pressure_nonneg_and_zero_when_clean :
    (∀ (i : Individual) (L : Location) (r : ℝ),
        0 < i.infection_radius → 0 ≤ r → 0 ≤ i.get_infection_pressure L r) ∧
    (∀ (p : Population) (L : Location) (r : ℝ),
        (∀ i ∈ p.individuals_list, i.is_infected = false) →
        p.pressure_at L r = 0) := by
  constructor
  · intro i L r hR hr
    unfold Individual.get_infection_pressure
    exact mul_nonneg hr (norm_pdf_nonneg _ _ (by linarith))
  · intro p L r h
    unfold Population.pressure_at
    have hnil : p.individuals_list.filter (fun i => i.is_infected) = [] := by
      rw [List.filter_eq_nil_iff]
      intro a ha
      simp [h a ha]
    rw [hnil]
    rfl

/-- Witness for C2 at the concrete individual indiv_r2 and the concrete
uninfected population pop_clean. -/
theorem C2_witness :
    0 ≤ indiv_r2.get_infection_pressure loc0 1 ∧ pop_clean.pressure_at loc0 1 = 0 :=
  ⟨C2_pressure_nonneg_and_zero_when_clean.1 indiv_r2 loc0 1 (by norm_num [indiv_r2]) (by norm_num),
   C2_pressure_nonneg_and_zero_when_clean.2 pop_clean loc0 1 (by
     intro i hi
     simp only [pop_clean, Population.init, List.mem_singleton] at hi
     rw [hi])⟩

/-- C3: for a fixed individual with positive infection_radius and a
non-negative infectious_rate, the pressure contribution is non-increasing
in the distance of the query location: if L1 is at most as far as L2 from
the individual, the pressure at L1 is at least the pressure at L2. -/
theorem C3_pressure_antitone_in_distance (i : Individual) (r : ℝ) (L1 L2 : Location)
    (hR : 0 < i.infection_radius) (hr : 0 ≤ r)
    (hd : i.cal_distance L1 ≤ i.cal_distance L2) :
    i.get_infection_pressure L2 r ≤ i.get_infection_pressure L1 r := by
  unfold Individual.get_infection_pressure
  exact mul_le_mul_of_nonneg_left
    (norm_pdf_anti _ _ _ (by linarith) (cal_distance_nonneg i L1) hd) hr

/-- Witness for C3 at the concrete individual indiv_r2, comparing its own
location (distance 0) with the location (3, 4) (distance 5). -/
theorem C3_witness :
    indiv_r2.get_infection_pressure (Location.init 3 4) 1
      ≤ indiv_r2.get_infection_pressure loc0 1 :=
  C3_pressure_antitone_in_distance indiv_r2 1 loc0 (Location.init 3 4)
    (by norm_num [indiv_r2]) (by norm_num)
    (by
      have h0 : indiv_r2.cal_distance loc0 = 0 := cal_distance_self indiv_r2
      rw [h0]
      exact cal_distance_nonneg indiv_r2 (Location.init 3 4))

/-- C5: for an individual with positive infection_radius, the pressure at
distance 0 (query location equal to the individual's location) is bounded
above by infectious_rate / (3 * infection_radius * sqrt(2 * pi)); in the
real-number embedding the value is in fact exactly that quantity, hence
finite. -/
theorem C5_pressure_bounded_at_zero_distance (i : Individual) (r : ℝ)
    (_hR : 0 < i.infection_radius) :
    i.get_infection_pressure i.location r
      ≤ r / (3 * i.infection_radius * Real.sqrt (2 * Real.pi)) := by
  rw [pressure_at_self]
  apply le_of_eq
  ring_nf

/-- Witness for C5 at the concrete individual indiv_r2 with infectious_rate 1. -/
theorem C5_witness :
    indiv_r2.get_infection_pressure indiv_r2.location 1
      ≤ 1 / (3 * indiv_r2.infection_radius * Real.sqrt (2 * Real.pi)) :=
  C5_pressure_bounded_at_zero_distance indiv_r2 1 (by norm_num [indiv_r2])

/-- C10: get_infection_pressure is homogeneous in infectious_rate: scaling
the rate by c scales the returned pressure by c, and rate 0 gives pressure
exactly 0. -/
theorem C10_pressure_homogeneous_in_rate (i : Individual) (L : Location) (c r : ℝ)
    (_hR : 0 < i.infection_radius) :
    i.get_infection_pressure L (c * r) = c * i.get_infection_pressure L r ∧
    i.get_infection_pressure L 0 = 0 := by
  unfold Individual.get_infection_pressure
  constructor
  · ring
  · exact zero_mul _

/-- Witness for C10 at the concrete individual indiv_r2 with c = 2, r = 1. -/
theorem C10_witness :
    indiv_r2.get_infection_pressure loc0 (2 * 1)
        = 2 * indiv_r2.get_infection_pressure loc0 1 ∧
    indiv_r2.get_infection_pressure loc0 0 = 0 :=
  C10_pressure_homogeneous_in_rate indiv_r2 loc0 2 1 (by norm_num [indiv_r2])

/-- C4 counterexample: the concrete infectious individual indiv_r2 has
infection_date = step 0, so at step 4 the elapsed time 4 - 0 has reached
VIRUS_LIFE_EXPECTANCY (= 4.0), yet its pressure contribution at its own
location with infectious_rate 1 is not zero, contradicting the claim that
the contribution equals zero at or beyond the life-expectancy cutoff. -/
theorem C4_counterexample :
    indiv_r2.infection_date = some 0 ∧
    VIRUS_LIFE_EXPECTANCY ≤ (4 : ℝ) - 0 ∧
    indiv_r2.get_infection_pressure indiv_r2.location 1 ≠ 0 := by
  refine ⟨rfl, by norm_num [VIRUS_LIFE_EXPECTANCY], ?_⟩
  rw [pressure_at_self]
  have h2 : indiv_r2.infection_radius = 2 := rfl
  rw [h2]
  have hpos : 0 < (1 : ℝ) / (2 * 3 * Real.sqrt (2 * Real.pi)) := by positivity
  exact ne_of_gt hpos

/-- C4 amended: get_infection_pressure reads neither infection_date nor
VIRUS_LIFE_EXPECTANCY, so the contribution is identical for every
infection_date (constant in elapsed time, with no attenuation and no
cutoff at the virus life expectancy). -/
theorem C4_pressure_ignores_infection_date (i : Individual) (L : Location) (r : ℝ)
    (d1 d2 : Option ℤ) :
    (i.with_infection_date d1).get_infection_pressure L r
      = (i.with_infection_date d2).get_infection_pressure L r := rfl

/-- C7 counterexample: the Individual constructor called with
infection_radius = -1 does not fail; it returns a fully formed individual
that stores the non-positive radius and all other arguments unchanged,
contradicting the claim that creation with infection_radius ≤ 0 fails with
a fatal error. -/
theorem C7_counterexample :
    indiv_bad.infection_radius = -1 ∧ indiv_bad.infection_radius ≤ 0 ∧
    indiv_bad.location = loc0 ∧ indiv_bad.age = 40 ∧ indiv_bad.is_dead = false := by
  refine ⟨rfl, ?_, rfl, rfl, rfl⟩
  norm_num [indiv_bad, Individual.init]

/-- C7 amended: Individual.__init__ performs no validation: for every
argument vector, including any infection_radius ≤ 0, it returns an
individual whose attributes are exactly the arguments given. -/
theorem C7_constructor_is_total (loc : Location) (age : ℤ) (inf : Bool)
    (idate : Option ℤ) (sym : Bool) (sdate : Option ℤ) (dead : Bool)
    (ddate : Option ℤ) (vul mob imm rad : ℝ) :
    (Individual.init loc age inf idate sym sdate dead ddate vul mob imm rad).infection_radius
        = rad ∧
    (Individual.init loc age inf idate sym sdate dead ddate vul mob imm rad).location = loc ∧
    (Individual.init loc age inf idate sym sdate dead ddate vul mob imm rad).age = age :=
  ⟨rfl, rfl, rfl⟩

/-- C6: each aggregate count equals the number of individuals in
individuals_list with the corresponding flag set; the counts are
recomputed from the collection on every call (the methods read only
individuals_list, never individuals_array or any cached counter). -/
theorem C6_counts_recomputed_from_list (p : Population) :
    p.get_infected_count
        = (p.individuals_list.filter (fun i => i.is_infected)).length ∧
    p.get_has_symptom_count
        = (p.individuals_list.filter (fun i => i.has_symptom)).length ∧
    p.get_death_count
        = (p.individuals_list.filter (fun i => i.is_dead)).length := by
  unfold Population.get_infected_count Population.get_has_symptom_count
    Population.get_death_count
  refine ⟨?_, ?_, ?_⟩ <;> rw [foldl_bool_count] <;> simp

/-- C8: calling any of the three count methods leaves the Population object
and every Individual it contains unchanged: the method-call semantics
returns the original state, so individuals_list, population_size and
population_location (and hence every per-individual field) are identical
before and after the call. -/
theorem C8_count_calls_leave_population_unchanged (p : Population) :
    (p.get_infected_count_call.2 = p ∧
     p.get_has_symptom_count_call.2 = p ∧
     p.get_death_count_call.2 = p) ∧
    (p.get_infected_count_call.2.individuals_list = p.individuals_list ∧
     p.get_infected_count_call.2.population_size = p.population_size ∧
     p.get_infected_count_call.2.population_location = p.population_location) :=
  ⟨⟨rfl, rfl, rfl⟩, ⟨rfl, rfl, rfl⟩⟩

/-- C9 counterexample: the Location constructor accepts the out-of-bounds
coordinate (-1, 0) and stores it unchanged, so the constructed Location
violates the world-bounds invariant 0 ≤ x ≤ X_MAX. -/
theorem C9_counterexample : ¬ (Location.init (-1) 0).inBounds := by
  intro h
  have hx : (0 : ℝ) ≤ -1 := h.1
  norm_num at hx

/-- C9 amended: the Location constructor stores its arguments unchecked, so
a constructed Location satisfies the world-bounds invariant exactly when
its constructor arguments already do; the bounds are not established by
construction. -/
theorem C9_bounds_iff_arguments_in_bounds (x y : ℝ) :
    (Location.init x y).inBounds ↔
      (0 ≤ x ∧ x ≤ 300000 ∧ 0 ≤ y ∧ y ≤ 800000) := by
  unfold Location.inBounds Location.init X_BOUNDARY Y_BOUNDARY
  norm_num

end Covid19
